import Mathlib

/-!
Shallow embedding of the crop-selection engine (src/components/ImageCropper.tsx)
and the overlay compositor (src/utils/overlayUtils.ts) of the sash-app repository.

Coordinates and percentage deltas are modelled as exact rationals; pixel deltas
divided by container sizes arrive here already converted to percentage units.
Strings are Lean strings; the JS truthiness test on a string is modelled as
inequality with the empty string.
-/

namespace SashApp

/-- Gesture action kinds of the cropper: the five non-null values of the
React state field `action` in ImageCropper.tsx. -/
inductive Action where
  | move
  | nw
  | ne
  | sw
  | se
deriving DecidableEq, Repr

/-- Crop rectangle in percentage units (0-100), the shape of the `crop`,
`startCrop` and `newCrop` objects in ImageCropper.tsx. -/
structure Rect where
  x : ℚ
  y : ℚ
  w : ℚ
  h : ℚ
deriving DecidableEq, Repr

/-- NormalizedRect invariants from the spec data model: bounds within the
unit frame and a minimum size of 10 on both axes. -/
def RectInvariant (r : Rect) : Prop :=
  0 ≤ r.x ∧ 0 ≤ r.y ∧ r.x + r.w ≤ 100 ∧ r.y + r.h ≤ 100 ∧ 10 ≤ r.w ∧ 10 ≤ r.h

instance (r : Rect) : Decidable (RectInvariant r) := by
  unfold RectInvariant; infer_instance

/-- The test `action.includes('e')` of ImageCropper.tsx on the five actions. -/
def includesE : Action → Bool
  | .ne | .se => true
  | _ => false

/-- The test `action.includes('s')` of ImageCropper.tsx on the five actions. -/
def includesS : Action → Bool
  | .sw | .se => true
  | _ => false

/-- The test `action.includes('w')` of ImageCropper.tsx on the five actions. -/
def includesW : Action → Bool
  | .nw | .sw => true
  | _ => false

/-- The test `action.includes('n')` of ImageCropper.tsx on the five actions. -/
def includesN : Action → Bool
  | .nw | .ne => true
  | _ => false

/-- Rectangle computation of `handlePointerMove` (ImageCropper.tsx lines 40-62):
`newCrop` starts as a copy of `startCrop`; the move branch clamps the translated
origin, and each resize branch reads only `startCrop` fields and writes its own
fields of `newCrop`, in source order e, s, w, n. `deltaX`/`deltaY` are the
pointer deltas already projected into percentage units. -/
def updateGesture (startCrop : Rect) (act : Action) (deltaX deltaY : ℚ) : Rect :=
  if act = Action.move then
    { startCrop with
      x := max 0 (min (100 - startCrop.w) (startCrop.x + deltaX)),
      y := max 0 (min (100 - startCrop.h) (startCrop.y + deltaY)) }
  else
    let c1 :=
      if includesE act then
        { startCrop with w := max 10 (min (100 - startCrop.x) (startCrop.w + deltaX)) }
      else startCrop
    let c2 :=
      if includesS act then
        { c1 with h := max 10 (min (100 - startCrop.y) (startCrop.h + deltaY)) }
      else c1
    let c3 :=
      if includesW act then
        let validDelta := min (startCrop.w - 10) deltaX
        { c2 with x := max 0 (startCrop.x + validDelta), w := startCrop.w - validDelta }
      else c2
    let c4 :=
      if includesN act then
        let validDelta := min (startCrop.h - 10) deltaY
        { c3 with y := max 0 (startCrop.y + validDelta), h := startCrop.h - validDelta }
      else c3
    c4

/-- Component state of ImageCropper relevant to the gesture machine: the React
state fields `crop`, `isDragging`, `dragStart`, `startCrop` and `action`
(whose TypeScript type also admits null, modelled as `none`). -/
structure CropperState where
  crop : Rect
  isDragging : Bool
  dragStart : ℚ × ℚ
  startCrop : Rect
  action : Option Action
deriving DecidableEq, Repr

/-- Error taxonomy of the spec relevant to the crop engine. -/
inductive CropError where
  | invalidArgument
deriving DecidableEq, Repr

/-- Initial cropper state (ImageCropper.tsx lines 15-19): full-frame crop,
not dragging, zeroed session fields, null action. -/
def initialState : CropperState :=
  { crop := { x := 0, y := 0, w := 100, h := 100 }
    isDragging := false
    dragStart := (0, 0)
    startCrop := { x := 0, y := 0, w := 0, h := 0 }
    action := none }

/-- Embedding of `handlePointerDown` (ImageCropper.tsx lines 22-31): if the
container ref is null, nothing happens; otherwise the session fields are set
from the event and the requested action, with no validation of `act` and no
change to `crop`. The second component records any error signalled to the
caller; the source signals none on any path. -/
def handlePointerDown (s : CropperState) (pos : ℚ × ℚ) (act : Option Action)
    (containerPresent : Bool) : CropperState × Option CropError :=
  if containerPresent then
    ({ s with isDragging := true, dragStart := pos, startCrop := s.crop, action := act }, none)
  else (s, none)

/-- Embedding of `handlePointerMove` at state level (ImageCropper.tsx lines
33-63): a no-op unless a drag is active, the container ref is present and the
action is non-null; otherwise the pointer delta is projected into percentage
units of the container box and the rectangle is recomputed by `updateGesture`. -/
def handlePointerMove (s : CropperState) (pointerPos : ℚ × ℚ)
    (containerW containerH : ℚ) (containerPresent : Bool) : CropperState :=
  match s.isDragging, containerPresent, s.action with
  | true, true, some act =>
      let deltaX := (pointerPos.1 - s.dragStart.1) / containerW * 100
      let deltaY := (pointerPos.2 - s.dragStart.2) / containerH * 100
      { s with crop := updateGesture s.startCrop act deltaX deltaY }
  | _, _, _ => s

/-- Pixel-space rectangle produced by the mapping step of `performCrop`. -/
structure PixelRect where
  x : ℚ
  y : ℚ
  w : ℚ
  h : ℚ
deriving DecidableEq, Repr

/-- Pixel mapping of `performCrop` (ImageCropper.tsx lines 81-84): each
percentage field divided by 100 and multiplied by the matching natural
dimension. -/
def rectToPixels (crop : Rect) (naturalW naturalH : ℚ) : PixelRect :=
  { x := crop.x / 100 * naturalW
    y := crop.y / 100 * naturalH
    w := crop.w / 100 * naturalW
    h := crop.h / 100 * naturalH }

/-- Full-frame default crop rectangle (ImageCropper.tsx line 15). -/
def defaultCrop : Rect := { x := 0, y := 0, w := 100, h := 100 }

/-- Encoded image bytes, identified only up to an abstract token. -/
abbrev Blob := ℕ

/-- Tail of `performCrop` (ImageCropper.tsx lines 94-96): the `toBlob`
callback result is `some blob` or `none` (JS null). The returned value is
`ok (some b)` when `onCrop b` is invoked, `ok none` when the callback body
skips the call; no path signals an error. -/
def performCropEncodeCallback (encodeResult : Option Blob) : Except String (Option Blob) :=
  match encodeResult with
  | some blob => Except.ok (some blob)
  | none => Except.ok none

/-- Embedding of `canvasToBlob` (overlayUtils.ts lines 98-107): resolves with
the blob when `toBlob` yields one, rejects with the conversion-failed error
when it yields null. -/
def canvasToBlob (encodeResult : Option Blob) : Except String Blob :=
  match encodeResult with
  | some blob => Except.ok blob
  | none => Except.error "Canvas conversion failed"

/-- Temperature readings record (src/types.ts): four mandatory fields and the
optional `pt`, all numeric strings. -/
structure TemperatureReadings where
  t1 : String
  t2 : String
  t3 : String
  t4 : String
  pt : String
deriving DecidableEq, Repr

/-- Model of the JavaScript `trim()` used in the `pt` push condition of
overlayUtils.ts line 49: the character list of the string with leading and
trailing whitespace removed. -/
def jsTrim (s : String) : List Char :=
  ((s.data.dropWhile Char.isWhitespace).reverse.dropWhile Char.isWhitespace).reverse

/-- Text-line generation of `drawOverlayOnBitmap` (overlayUtils.ts lines
41-51): the four mandatory readings in fixed order, then the optional line
labelled `P.T` pushed only when `readings.pt` is truthy and trims to a
non-empty string. -/
def overlayLines (readings : TemperatureReadings) : List String :=
  let base :=
    [ "T1: " ++ readings.t1 ++ "°C"
    , "T2: " ++ readings.t2 ++ "°C"
    , "T3: " ++ readings.t3 ++ "°C"
    , "T4: " ++ readings.t4 ++ "°C" ]
  if readings.pt ≠ "" ∧ jsTrim readings.pt ≠ [] then
    base ++ ["P.T: " ++ readings.pt ++ "°C"]
  else base

/-- Maximum output dimension of the compositor (overlayUtils.ts line 15). -/
def MAX_DIMENSION : ℚ := 2560

/-- Output-buffer dimension computation of `drawOverlayOnBitmap`
(overlayUtils.ts lines 16-23): when either natural dimension exceeds
`MAX_DIMENSION`, both are multiplied by the smaller of the two downscale
ratios and floored; otherwise they pass through. -/
def downscaleDims (naturalWidth naturalHeight : ℕ) : ℤ × ℤ :=
  let drawWidth : ℚ := naturalWidth
  let drawHeight : ℚ := naturalHeight
  if MAX_DIMENSION < drawWidth ∨ MAX_DIMENSION < drawHeight then
    let r := min (MAX_DIMENSION / drawWidth) (MAX_DIMENSION / drawHeight)
    (⌊drawWidth * r⌋, ⌊drawHeight * r⌋)
  else
    (naturalWidth, naturalHeight)

/-- Canvas dimensions as observable state of the compositor's output buffer. -/
structure Canvas where
  width : ℤ
  height : ℤ
deriving DecidableEq, Repr

/-- Observable behaviour of `drawOverlayOnBitmap` (overlayUtils.ts lines
3-96): when `canvas.getContext` yields null the function returns at line 10,
before any canvas mutation, without signalling anything; otherwise the canvas
is resized to the downscaled dimensions and the text lines are drawn. The
second component is `none` exactly when nothing was drawn; the source throws
or rejects on no path, so the embedding is total. -/
def drawOverlayOnBitmap (ctxAvailable : Bool) (canvas : Canvas)
    (naturalWidth naturalHeight : ℕ) (readings : TemperatureReadings) :
    Canvas × Option (List String) :=
  if ctxAvailable then
    let dims := downscaleDims naturalWidth naturalHeight
    ({ width := dims.1, height := dims.2 }, some (overlayLines readings))
  else (canvas, none)

end SashApp

namespace SashApp

/-- C1: the claim that every gesture update from a rectangle satisfying the
NormalizedRect invariants again satisfies them fails on the code. From the
valid start rectangle (50, 0, 20, 100), a southwest resize with deltaX = -100
clamps x to 0 but subtracts the uncapped delta from the width, returning
(0, 0, 120, 100), which violates x + w ≤ 100. -/
theorem updateGesture_breaks_invariant_on_west_drag :
    RectInvariant { x := 50, y := 0, w := 20, h := 100 } ∧
    updateGesture { x := 50, y := 0, w := 20, h := 100 } Action.sw (-100) 0 =
      { x := 0, y := 0, w := 120, h := 100 } ∧
    ¬ RectInvariant (updateGesture { x := 50, y := 0, w := 20, h := 100 } Action.sw (-100) 0) := by
  have heval :
      updateGesture { x := 50, y := 0, w := 20, h := 100 } Action.sw (-100) 0 =
        { x := 0, y := 0, w := 120, h := 100 } := by
    norm_num [updateGesture, includesE, includesS, includesW, includesN, min_def, max_def]
    decide
  refine ⟨by norm_num [RectInvariant], heval, ?_⟩
  rw [heval]
  intro hinv
  have := hinv.2.2.1
  norm_num at this

/-- C4: a move gesture only translates: the returned rectangle keeps the start
width and height, and each origin coordinate is the translated coordinate
clamped into the range from 0 to 100 minus the matching start extent. -/
theorem updateGesture_move_translates (r : Rect) (dX dY : ℚ) :
    updateGesture r Action.move dX dY =
      { x := max 0 (min (100 - r.w) (r.x + dX))
        y := max 0 (min (100 - r.h) (r.y + dY))
        w := r.w
        h := r.h } := by
  simp [updateGesture]

/-- C5: a west-edge resize (nw or sw) from a start rectangle with w ≥ 10 and
x ≥ 0 returns x ≥ 0 and w ≥ 10 for any deltaX, because the effective delta is
capped at the start width minus the minimum size and the origin is clamped at
0; symmetrically a north-edge resize (nw or ne) returns y ≥ 0 and h ≥ 10. -/
theorem updateGesture_west_north_min_size (r : Rect) (act : Action) (dX dY : ℚ)
    (hx : 0 ≤ r.x) (hw : 10 ≤ r.w) (hy : 0 ≤ r.y) (hh : 10 ≤ r.h) :
    ((act = Action.nw ∨ act = Action.sw) →
      0 ≤ (updateGesture r act dX dY).x ∧ 10 ≤ (updateGesture r act dX dY).w) ∧
    ((act = Action.nw ∨ act = Action.ne) →
      0 ≤ (updateGesture r act dX dY).y ∧ 10 ≤ (updateGesture r act dX dY).h) := by
  have keyw : ∀ q : ℚ, (10 : ℚ) ≤ r.w - min (r.w - 10) q := fun q => by
    have := min_le_left (r.w - 10) q
    linarith
  have keyh : ∀ q : ℚ, (10 : ℚ) ≤ r.h - min (r.h - 10) q := fun q => by
    have := min_le_left (r.h - 10) q
    linarith
  constructor
  · rintro (rfl | rfl)
    · exact ⟨le_max_left _ _, keyw dX⟩
    · exact ⟨le_max_left _ _, keyw dX⟩
  · rintro (rfl | rfl)
    · exact ⟨le_max_left _ _, keyh dY⟩
    · exact ⟨le_max_left _ _, keyh dY⟩

/-- Witness for C5: a concrete northwest resize with a large negative delta
keeps the origin at 0 and the width at least 10. -/
theorem updateGesture_west_north_min_size_witness :
    0 ≤ (updateGesture { x := 20, y := 20, w := 40, h := 40 } Action.nw (-500) (-500)).x ∧
    10 ≤ (updateGesture { x := 20, y := 20, w := 40, h := 40 } Action.nw (-500) (-500)).w := by
  exact (updateGesture_west_north_min_size { x := 20, y := 20, w := 40, h := 40 }
    Action.nw (-500) (-500) (by norm_num) (by norm_num) (by norm_num) (by norm_num)).1
    (Or.inl rfl)

/-- C6 counterexample: `handlePointerDown` does not reject the out-of-range
action value null (the one value of its runtime action type outside the five
defined kinds): it signals no error and starts a drag session anyway. -/
theorem handlePointerDown_accepts_null_action :
    (handlePointerDown initialState (3, 4) none true).2 ≠ some CropError.invalidArgument ∧
    (handlePointerDown initialState (3, 4) none true).1.isDragging = true := by
  exact ⟨by decide, rfl⟩

/-- C6 amended: `handlePointerDown` validates nothing and signals no error for
any action input (invalid actions are excluded statically by its TypeScript
parameter type, which still admits null); it never mutates the crop rectangle
itself, and after a pointer-down with a null action every pointer-move is a
no-op, so no partial mutation is ever applied. -/
theorem handlePointerDown_never_signals (s : CropperState) (pos : ℚ × ℚ)
    (act : Option Action) (containerPresent : Bool) :
    (handlePointerDown s pos act containerPresent).2 = none ∧
    (handlePointerDown s pos act containerPresent).1.crop = s.crop ∧
    (∀ p cw ch c2,
      handlePointerMove (handlePointerDown s pos none true).1 p cw ch c2 =
        (handlePointerDown s pos none true).1) := by
  refine ⟨?_, ?_, ?_⟩
  · unfold handlePointerDown
    split <;> rfl
  · unfold handlePointerDown
    split <;> rfl
  · intro p cw ch c2
    cases c2 <;> rfl

/-- C2 counterexample: with pt equal to "12.5" the compositor renders five
lines, but the fifth line is "P.T: 12.5°C", not the upper-cased-key format
"PT: 12.5°C" stated by the claim. -/
theorem overlayLines_pt_label_counterexample :
    overlayLines { t1 := "20.1", t2 := "21.2", t3 := "22.3", t4 := "23.4", pt := "12.5" } =
      ["T1: 20.1°C", "T2: 21.2°C", "T3: 22.3°C", "T4: 23.4°C", "P.T: 12.5°C"] ∧
    ("P.T: 12.5°C" : String) ≠ "PT: 12.5°C" := by
  exact ⟨by decide, by decide⟩

/-- C2 amended: lines are generated in the fixed order t1, t2, t3, t4 with
upper-cased keys; a record whose pt trims to empty renders exactly 4 lines,
and the same record with pt set to "12.5" renders 5 lines in order whose
fifth is "P.T: 12.5°C" (the label is "P.T", not the upper-cased key "PT"). -/
theorem overlayLines_line_generation (r : TemperatureReadings)
    (hpt : jsTrim r.pt = []) :
    (overlayLines r).length = 4 ∧
    overlayLines { r with pt := "12.5" } =
      [ "T1: " ++ r.t1 ++ "°C"
      , "T2: " ++ r.t2 ++ "°C"
      , "T3: " ++ r.t3 ++ "°C"
      , "T4: " ++ r.t4 ++ "°C"
      , "P.T: 12.5°C" ] := by
  constructor
  · unfold overlayLines
    split
    · rename_i hcond
      exact absurd hpt hcond.2
    · rfl
  · unfold overlayLines
    split
    · rfl
    · rename_i hcond
      refine absurd ⟨?_, ?_⟩ hcond
      · show ("12.5" : String) ≠ ""
        decide
      · show jsTrim "12.5" ≠ []
        decide

/-- Witness for C2 amended: a concrete record with a whitespace-only pt
renders exactly 4 lines. -/
theorem overlayLines_line_generation_witness :
    (overlayLines { t1 := "20.1", t2 := "21.2", t3 := "22.3", t4 := "23.4", pt := " " }).length
      = 4 := by
  exact (overlayLines_line_generation
    { t1 := "20.1", t2 := "21.2", t3 := "22.3", t4 := "23.4", pt := " " } (by decide)).1

/-- C3: for positive source dimensions, when either dimension exceeds 2560 the
output dimensions are the inputs multiplied by the single ratio
min(2560/width, 2560/height) and floored; otherwise they pass through
unchanged; the output never exceeds the input on either axis; and concretely
3000x1500 maps to 2560x1280 while 1200x800 is unchanged. -/
theorem downscaleDims_spec (w h : ℕ) (hw : 0 < w) (hh : 0 < h) :
    ((2560 < (w : ℚ) ∨ 2560 < (h : ℚ)) →
      downscaleDims w h =
        (⌊(w : ℚ) * min (2560 / (w : ℚ)) (2560 / (h : ℚ))⌋,
         ⌊(h : ℚ) * min (2560 / (w : ℚ)) (2560 / (h : ℚ))⌋)) ∧
    ((w : ℚ) ≤ 2560 → (h : ℚ) ≤ 2560 → downscaleDims w h = ((w : ℤ), (h : ℤ))) ∧
    (downscaleDims w h).1 ≤ (w : ℤ) ∧ (downscaleDims w h).2 ≤ (h : ℤ) ∧
    downscaleDims 3000 1500 = (2560, 1280) ∧
    downscaleDims 1200 800 = (1200, 800) := by
  have hw0 : (0 : ℚ) < (w : ℚ) := by exact_mod_cast hw
  have hh0 : (0 : ℚ) < (h : ℚ) := by exact_mod_cast hh
  by_cases hc : (2560 : ℚ) < (w : ℚ) ∨ (2560 : ℚ) < (h : ℚ)
  · have hr1 : min (2560 / (w : ℚ)) (2560 / (h : ℚ)) ≤ 1 := by
      rcases hc with hcw | hch
      · exact le_trans (min_le_left _ _) ((div_le_one hw0).2 (le_of_lt hcw))
      · exact le_trans (min_le_right _ _) ((div_le_one hh0).2 (le_of_lt hch))
    have heval : downscaleDims w h =
        (⌊(w : ℚ) * min (2560 / (w : ℚ)) (2560 / (h : ℚ))⌋,
         ⌊(h : ℚ) * min (2560 / (w : ℚ)) (2560 / (h : ℚ))⌋) := by
      simp only [downscaleDims, MAX_DIMENSION]
      rw [if_pos hc]
    refine ⟨fun _ => heval, fun h1 h2 => absurd hc (by push_neg; exact ⟨h1, h2⟩), ?_, ?_,
      by norm_num [downscaleDims, MAX_DIMENSION, min_def],
      by norm_num [downscaleDims, MAX_DIMENSION]⟩
    · rw [heval]
      calc ⌊(w : ℚ) * min (2560 / (w : ℚ)) (2560 / (h : ℚ))⌋
          ≤ ⌊(w : ℚ)⌋ := Int.floor_le_floor (mul_le_of_le_one_right (le_of_lt hw0) hr1)
        _ = (w : ℤ) := Int.floor_natCast w
    · rw [heval]
      calc ⌊(h : ℚ) * min (2560 / (w : ℚ)) (2560 / (h : ℚ))⌋
          ≤ ⌊(h : ℚ)⌋ := Int.floor_le_floor (mul_le_of_le_one_right (le_of_lt hh0) hr1)
        _ = (h : ℤ) := Int.floor_natCast h
  · have heval : downscaleDims w h = ((w : ℤ), (h : ℤ)) := by
      simp only [downscaleDims, MAX_DIMENSION]
      rw [if_neg hc]
    refine ⟨fun hcc => absurd hcc hc, fun _ _ => heval, ?_, ?_,
      by norm_num [downscaleDims, MAX_DIMENSION, min_def],
      by norm_num [downscaleDims, MAX_DIMENSION]⟩
    · rw [heval]
    · rw [heval]

/-- Witness for C3: the two concrete downscale instances, obtained from the
general theorem at positive dimensions. -/
theorem downscaleDims_spec_witness :
    downscaleDims 3000 1500 = (2560, 1280) ∧ downscaleDims 1200 800 = (1200, 800) := by
  exact ⟨(downscaleDims_spec 3000 1500 (by norm_num) (by norm_num)).2.2.2.2.1,
         (downscaleDims_spec 1200 800 (by norm_num) (by norm_num)).2.2.2.2.2⟩

/-- C7: the pixel mapping of performCrop applied to the full-frame default
rectangle returns exactly the origin and the full natural dimensions, for
every natural width and height. -/
theorem rectToPixels_full_frame (naturalWidth naturalHeight : ℕ) :
    rectToPixels defaultCrop naturalWidth naturalHeight =
      { x := 0, y := 0, w := naturalWidth, h := naturalHeight } := by
  simp [rectToPixels, defaultCrop]

/-- C8: when the 2D context cannot be acquired, drawOverlayOnBitmap returns
with the canvas unmodified and nothing drawn; its type is total, matching the
source, which neither throws nor rejects on this path, so the silent empty
outcome is signalled to no caller. -/
theorem drawOverlayOnBitmap_no_ctx_silent (canvas : Canvas)
    (naturalWidth naturalHeight : ℕ) (readings : TemperatureReadings) :
    drawOverlayOnBitmap false canvas naturalWidth naturalHeight readings = (canvas, none) := rfl

/-- C9: when the encode step yields no bytes, the performCrop callback
completes successfully without invoking onCrop, while canvasToBlob rejects
with the conversion-failed error in the same situation. -/
theorem performCrop_drops_null_blob :
    performCropEncodeCallback none = Except.ok none ∧
    canvasToBlob none = Except.error "Canvas conversion failed" :=
  ⟨rfl, rfl⟩

/-- C10: the downscale guard's floor can produce a zero output dimension: a
10000 by 2 source maps to 2560 by 0, so the output buffer has zero height. -/
theorem downscaleDims_zero_height : downscaleDims 10000 2 = (2560, 0) := by
  norm_num [downscaleDims, MAX_DIMENSION, min_def]

end SashApp
